import Mathlib

/-!
# A shallow embedding of `scripts/core/autonomous_manager.py`

This file models the Task Dependency Tracker & Sequential Runner of the
repository: the `AutonomousManager` class with its task queue, active-task
map, completed history, retry bookkeeping and progress reports.

Modelling conventions:
* Python `datetime.now().isoformat()` timestamps are rendered by a logical
  clock (`ManagerState.clock : Nat`); `time.sleep` only advances time, so it
  is reflected by the clock increment at the end of each loop iteration.
* The body of the `try:` block of `_execute_task` calls
  `self.agent_caller.call_agent` (the only statement there that can raise);
  it is abstracted by a parameter `work : AutonomousTask → Except String Unit`
  whose `.error` result renders a raised exception, exactly as the spec's
  recommended pluggable work callback.  The always-succeeding stub of the
  source is the instance `fun t => Except.ok ()`.
* Python object aliasing: `_execute_task` stores the task object in
  `self.active_tasks` and then mutates it, so the map entry sees every later
  field write.  The pure rendering re-inserts the updated record at each
  mutation site (`upsert`).
* `self.active_tasks` is a `dict` (insertion ordered, unique keys); it is
  modelled as an insertion-ordered association list with `upsert` update.
* Python floats `0.5`, `0.75`, and the divisions in reports, are modelled in
  `ℚ`; for the magnitudes involved the float arithmetic of the source is
  exact, so the comparisons agree.
* `_calculate_resource_usage` renders numbers into strings with f-string
  formatting; the percent formatting of `retry_rate` is approximated by a
  plain fraction string (no claim depends on it).
-/

namespace AutonomousManager

/-- `TaskStatus` enum of the source (six values). -/
inductive TaskStatus where
  | pending
  | in_progress
  | completed
  | failed
  | blocked
  | cancelled
  deriving DecidableEq, Repr

/-- `TaskPriority` enum of the source. -/
inductive TaskPriority where
  | low
  | medium
  | high
  | critical
  deriving DecidableEq, Repr

/-- `AgentType` enum from `scripts/core/agent_caller.py`. -/
inductive AgentType where
  | orchestrator
  | project_organizer
  | codebase_analyzer
  | codebase_locator
  | security_specialist
  | backend_architect
  | rust_expert_developer
  | competitive_market_analyst
  | web_search_researcher
  deriving DecidableEq, Repr

/-- The `AutonomousTask` dataclass.  `results` models the dictionary
`{"status": ..., "deliverables": [...]}` the source stores on success. -/
structure AutonomousTask where
  task_id : String
  description : String
  agent_type : AgentType
  priority : TaskPriority
  status : TaskStatus
  dependencies : List String
  skills_required : List String
  commands_to_execute : List String
  expected_deliverables : List String
  max_retry_attempts : Nat := 3
  timeout_minutes : Nat := 30
  created_at : Nat := 0
  started_at : Option Nat := none
  completed_at : Option Nat := none
  progress : Nat := 0
  results : Option (String × List String) := none
  error_log : List String := []
  retry_count : Nat := 0
  deriving DecidableEq, Repr

/-- The `ExecutionReport` dataclass. -/
structure ExecutionReport where
  session_id : String
  total_tasks : Nat
  completed_tasks : Nat
  failed_tasks : Nat
  blocked_tasks : Nat
  overall_progress : ℚ
  current_phase : String
  next_actions : List String
  issues_encountered : List String
  recommendations : List String
  resource_usage : List (String × String)
  timestamp : Nat
  deriving DecidableEq, Repr

/-- The entries `_log_event` appends to `self.execution_log`, one constructor
per `event_type` string occurring in the source, carrying the data fields the
source records (timestamps elided). -/
inductive LogEvent where
  | task_added (task_id : String)
  | execution_started (total_tasks : Nat) (session_id : String)
  | task_started (task_id : String)
  | task_completed (task_id : String)
  | task_retry (task_id : String) (retry_count : Nat) (error : String)
  | task_failed (task_id : String) (final_error : String) (retry_count : Nat)
  | orchestrator_notification_failed (error : String)
  deriving DecidableEq, Repr

/-- The mutable state of an `AutonomousManager` instance: `task_queue`,
`active_tasks`, `completed_tasks`, `execution_log`, plus the logical clock.
The orchestrator callbacks, which the source also stores on the instance, are
passed as a parameter to the operations that use them (functions have no
decidable equality). -/
structure ManagerState where
  session_id : String
  task_queue : List AutonomousTask
  active_tasks : List (String × AutonomousTask)
  completed_tasks : List AutonomousTask
  execution_log : List LogEvent
  clock : Nat
  deriving DecidableEq, Repr

/-- `dict` assignment `m[k] = v`: replace the value at an existing key in
place, else append the new binding (Python dicts preserve insertion order). -/
def upsert (m : List (String × AutonomousTask)) (k : String) (v : AutonomousTask) :
    List (String × AutonomousTask) :=
  match m with
  | [] => [(k, v)]
  | (k1, v1) :: rest => if k1 = k then (k, v) :: rest else (k1, v1) :: upsert rest k v

/-- `dict` lookup `m[k]` (as an `Option`). -/
def lookupA (m : List (String × AutonomousTask)) (k : String) : Option AutonomousTask :=
  match m with
  | [] => none
  | (k1, v1) :: rest => if k1 = k then some v1 else lookupA rest k

/-- `_log_event`: append an entry to `self.execution_log`. -/
def log_event (s : ManagerState) (e : LogEvent) : ManagerState :=
  { s with execution_log := s.execution_log ++ [e] }

/-- `add_tasks`: append each task to the queue and log `task_added`. -/
def add_tasks (s : ManagerState) (ts : List AutonomousTask) : ManagerState :=
  ts.foldl (fun acc t =>
    { acc with task_queue := acc.task_queue ++ [t],
               execution_log := acc.execution_log ++ [LogEvent.task_added t.task_id] }) s

/-- The set comprehension `{task.task_id for task in self.completed_tasks}`
(membership below is by `List.contains`, which agrees with set membership). -/
def completed_task_ids (s : ManagerState) : List String :=
  s.completed_tasks.map (fun t => t.task_id)

/-- `all(dep_id in completed_task_ids for dep_id in task.dependencies)`. -/
def deps_satisfied (completed_ids : List String) (t : AutonomousTask) : Bool :=
  t.dependencies.all (fun d => completed_ids.contains d)

/-- The per-task test of `_find_ready_tasks`: the task is skipped unless its
status is `PENDING`, and selected when all dependencies are satisfied. -/
def is_ready (completed_ids : List String) (t : AutonomousTask) : Bool :=
  t.status == TaskStatus.pending && deps_satisfied completed_ids t

/-- `_find_ready_tasks`: one scan over a copy of the queue, selecting every
pending task whose dependencies are all in the completed set and removing it
from the queue; returns (ready tasks, remaining queue).  Iterating a copy
while calling `list.remove` on the original is exactly a stable partition by
`is_ready` (dataclass equality makes removal of an equal element harmless). -/
def find_ready_tasks (queue : List AutonomousTask) (completed_ids : List String) :
    List AutonomousTask × List AutonomousTask :=
  queue.partition (is_ready completed_ids)

/-- The field writes `task.status = IN_PROGRESS; task.started_at = now()` at
the head of `_execute_task`. -/
def in_progress_version (clk : Nat) (t : AutonomousTask) : AutonomousTask :=
  { t with status := TaskStatus.in_progress, started_at := some clk }

/-- The field writes of the success path of `_execute_task`: status
`COMPLETED`, completion timestamp, `progress = 100` (the transient
`progress = 50` write is immediately overwritten, with no observation point
in between), and the success results dictionary. -/
def success_version (clk : Nat) (t : AutonomousTask) : AutonomousTask :=
  { t with status := TaskStatus.completed, completed_at := some clk,
           progress := 100, results := some ("success", t.expected_deliverables) }

/-- The first two statements of `_handle_task_error`: append the
timestamp-prefixed error message to `task.error_log` and increment
`task.retry_count`. -/
def record_error (clk : Nat) (error : String) (t : AutonomousTask) : AutonomousTask :=
  { t with error_log := t.error_log ++ [toString clk ++ ": " ++ error],
           retry_count := t.retry_count + 1 }

/-- The retry branch of `_handle_task_error`: status back to `PENDING`. -/
def retry_version (clk : Nat) (error : String) (t : AutonomousTask) : AutonomousTask :=
  { record_error clk error t with status := TaskStatus.pending }

/-- The failure branch of `_handle_task_error`: status `FAILED` and a
completion timestamp. -/
def fail_version (clk : Nat) (error : String) (t : AutonomousTask) : AutonomousTask :=
  { record_error clk error t with status := TaskStatus.failed, completed_at := some clk }

/-- `_handle_task_error`: append the error to the task's error log, increment
`retry_count`; if `retry_count < max_retry_attempts` the task is set back to
`PENDING` and re-appended to the queue (logging `task_retry`), else it is set
to `FAILED` (logging `task_failed`).  The task object is aliased from
`self.active_tasks`, so each mutation is re-inserted there via `upsert`. -/
def handle_task_error (s : ManagerState) (t : AutonomousTask) (error : String) : ManagerState :=
  let t1 := record_error s.clock error t
  if t1.retry_count < t1.max_retry_attempts then
    let t2 := retry_version s.clock error t
    { s with task_queue := s.task_queue ++ [t2],
             active_tasks := upsert s.active_tasks t2.task_id t2,
             execution_log := s.execution_log ++ [LogEvent.task_retry t2.task_id t2.retry_count error] }
  else
    let t2 := fail_version s.clock error t
    { s with active_tasks := upsert s.active_tasks t2.task_id t2,
             execution_log := s.execution_log ++ [LogEvent.task_failed t2.task_id error t2.retry_count] }

/-- `_execute_task`: mark the task `IN_PROGRESS`, store it in
`self.active_tasks`, log `task_started`, run the work; on success mark it
`COMPLETED` with `progress = 100` and the success results and log
`task_completed`; on a raise, defer to `_handle_task_error`. -/
def execute_task (work : AutonomousTask → Except String Unit)
    (s : ManagerState) (t : AutonomousTask) : ManagerState :=
  let t1 := in_progress_version s.clock t
  let s1 := { s with active_tasks := upsert s.active_tasks t1.task_id t1,
                     execution_log := s.execution_log ++ [LogEvent.task_started t1.task_id] }
  match work t1 with
  | Except.ok _ =>
      let t2 := success_version s.clock t1
      { s1 with active_tasks := upsert s1.active_tasks t2.task_id t2,
                execution_log := s1.execution_log ++ [LogEvent.task_completed t2.task_id] }
  | Except.error e => handle_task_error s1 t1 e

/-- `task.status in [TaskStatus.COMPLETED, TaskStatus.FAILED]`. -/
def is_terminal (t : AutonomousTask) : Bool :=
  t.status == TaskStatus.completed || t.status == TaskStatus.failed

/-- `_check_task_completion`: move every active task whose status is
`COMPLETED` or `FAILED` into the completed history (in map order) and remove
it from `self.active_tasks`. -/
def check_task_completion (s : ManagerState) : ManagerState :=
  { s with
    completed_tasks :=
      s.completed_tasks ++ (s.active_tasks.filter (fun p => is_terminal p.2)).map Prod.snd,
    active_tasks := s.active_tasks.filter (fun p => !(is_terminal p.2)) }

/-- `_determine_current_phase`, comparison for comparison: `"Discovery &
Planning"` when the completed history is empty, else the source compares
`len(completed)` with `len(queue) + len(active) + len(completed) * 0.5`
(then `* 0.75`). -/
def determine_current_phase (s : ManagerState) : String :=
  if s.completed_tasks.isEmpty then "Discovery & Planning"
  else if (s.completed_tasks.length : ℚ) <
      (s.task_queue.length : ℚ) + (s.active_tasks.length : ℚ) +
        (s.completed_tasks.length : ℚ) * (1 / 2 : ℚ) then "Core Implementation"
  else if (s.completed_tasks.length : ℚ) <
      (s.task_queue.length : ℚ) + (s.active_tasks.length : ℚ) +
        (s.completed_tasks.length : ℚ) * (3 / 4 : ℚ) then "Validation & Security"
  else "Integration & Completion"

/-- `_determine_next_actions`. -/
def determine_next_actions (s : ManagerState) : List String :=
  if !s.task_queue.isEmpty then
    (s.task_queue.take 3).map (fun t => "Execute " ++ t.description)
  else if !s.active_tasks.isEmpty then
    s.active_tasks.map (fun p => "Complete " ++ p.2.description)
  else ["Generate final deliverables", "Prepare orchestrator handoff"]

/-- `_generate_recommendations` (the source's `avg_duration` is a sum of the
constant 2 divided by the count, so the second recommendation never fires;
the computation is reproduced, not simplified away). -/
def generate_recommendations (s : ManagerState) : List String :=
  let r1 := if s.completed_tasks.any (fun t => t.retry_count > 0)
    then ["Consider increasing timeout for complex tasks"] else []
  let r2 :=
    if s.completed_tasks.length > 0 then
      let avg : ℚ := (s.completed_tasks.map (fun _ => (2 : ℚ))).sum / (s.completed_tasks.length : ℚ)
      if avg > 30 then ["Consider breaking down complex tasks further"] else []
    else []
  r1 ++ r2

/-- `_calculate_resource_usage` (numeric formatting approximated in strings). -/
def calculate_resource_usage (s : ManagerState) : List (String × String) :=
  [("agents_utilized", toString (s.completed_tasks.map (fun t => t.agent_type)).dedup.length),
   ("total_execution_time", toString (s.completed_tasks.length * 2) ++ " seconds"),
   ("estimated_token_usage", toString (s.completed_tasks.length * 5000) ++ " tokens"),
   ("retry_rate", toString ((s.completed_tasks.map (fun t => t.retry_count)).sum) ++ "/" ++
      toString (max s.completed_tasks.length 1))]

/-- `_generate_progress_report`: the derived snapshot of the current
queue/active/completed partition. -/
def generate_progress_report (s : ManagerState) : ExecutionReport :=
  let total := s.task_queue.length + s.active_tasks.length + s.completed_tasks.length
  let completed := (s.completed_tasks.filter (fun t => t.status == TaskStatus.completed)).length
  let failed := (s.completed_tasks.filter (fun t => t.status == TaskStatus.failed)).length
  let blocked := (s.active_tasks.filter (fun p => p.2.status == TaskStatus.blocked)).length
  { session_id := s.session_id,
    total_tasks := total,
    completed_tasks := completed,
    failed_tasks := failed,
    blocked_tasks := blocked,
    overall_progress := if total > 0 then (completed : ℚ) / (total : ℚ) * 100 else 0,
    current_phase := determine_current_phase s,
    next_actions := determine_next_actions s,
    issues_encountered := s.completed_tasks.filterMap (fun t => t.error_log.getLast?),
    recommendations := generate_recommendations s,
    resource_usage := calculate_resource_usage s,
    timestamp := s.clock }

/-- `_generate_final_report`: the progress report with `current_phase`
overwritten to `"Completed"` and fixed `next_actions`. -/
def generate_final_report (s : ManagerState) : ExecutionReport :=
  let report := generate_progress_report s
  { report with current_phase := "Completed",
                next_actions := ["Review deliverables", "Validate results", "Plan next iteration"] }

/-- `_notify_orchestrator`: call every registered callback with the report;
a callback that raises is caught and a `orchestrator_notification_failed`
event is logged, and the remaining callbacks still run. -/
def notify_orchestrator (callbacks : List (ExecutionReport → Except String Unit))
    (s : ManagerState) (report : ExecutionReport) : ManagerState :=
  callbacks.foldl (fun acc cb =>
    match cb report with
    | Except.ok _ => acc
    | Except.error e =>
        { acc with execution_log :=
            acc.execution_log ++ [LogEvent.orchestrator_notification_failed e] }) s

/-- The loop guard of `start_autonomous_execution`, negated:
`while self.task_queue or self.active_tasks` exits here. -/
def loop_done (s : ManagerState) : Bool :=
  s.task_queue.isEmpty && s.active_tasks.isEmpty

/-- One iteration of the `while` loop of `start_autonomous_execution`:
find the ready tasks (removing them from the queue), execute each in order,
reconcile completions, and, when any ready task was executed, emit a progress
report to the orchestrator; `time.sleep(1)` advances the clock. -/
def tick (work : AutonomousTask → Except String Unit)
    (callbacks : List (ExecutionReport → Except String Unit))
    (s : ManagerState) : ManagerState :=
  let pr := find_ready_tasks s.task_queue (completed_task_ids s)
  let s1 := { s with task_queue := pr.2 }
  let s2 := pr.1.foldl (execute_task work) s1
  let s3 := check_task_completion s2
  let s4 := if pr.1.isEmpty then s3
            else notify_orchestrator callbacks s3 (generate_progress_report s3)
  { s4 with clock := s4.clock + 1 }

/-- The `while` loop of `start_autonomous_execution`, with explicit fuel:
`none` means the loop had not exited within `fuel` iterations. -/
def run_loop (work : AutonomousTask → Except String Unit)
    (callbacks : List (ExecutionReport → Except String Unit)) :
    Nat → ManagerState → Option ManagerState
  | 0, s => if loop_done s then some s else none
  | fuel + 1, s =>
      if loop_done s then some s
      else run_loop work callbacks fuel (tick work callbacks s)

/-- `start_autonomous_execution`: log `execution_started`, run the loop to
completion, then generate the final report, notify the orchestrator with it
and return it (paired with the final state). -/
def start_autonomous_execution (work : AutonomousTask → Except String Unit)
    (callbacks : List (ExecutionReport → Except String Unit))
    (fuel : Nat) (s : ManagerState) : Option (ManagerState × ExecutionReport) :=
  let s0 := log_event s (LogEvent.execution_started s.task_queue.length s.session_id)
  match run_loop work callbacks fuel s0 with
  | none => none
  | some s1 =>
      let final := generate_final_report s1
      some (notify_orchestrator callbacks s1 final, final)

/-! ## Derived observables used by the verification -/

/-- Every task record held by the manager, in queue/active/completed order
(the full "task universe" of the spec). -/
def all_tasks (s : ManagerState) : List AutonomousTask :=
  s.task_queue ++ s.active_tasks.map Prod.snd ++ s.completed_tasks

/-- The possible task records `_execute_task` produces from a task `t` at
clock `clk`: the success version, the requeued retry version, or the final
failed version, depending on the work outcome and the retry budget. -/
def execute_outcomes (work : AutonomousTask → Except String Unit)
    (clk : Nat) (t : AutonomousTask) : List AutonomousTask :=
  let t1 := in_progress_version clk t
  match work t1 with
  | Except.ok _ => [success_version clk t1]
  | Except.error e =>
      if (record_error clk e t1).retry_count < (record_error clk e t1).max_retry_attempts
      then [retry_version clk e t1] else [fail_version clk e t1]

/-- The log entries `_notify_orchestrator` appends: one
`orchestrator_notification_failed` entry per raising callback of the list,
in callback order. -/
def notification_failures (callbacks : List (ExecutionReport → Except String Unit))
    (report : ExecutionReport) : List LogEvent :=
  callbacks.filterMap (fun cb =>
    match cb report with
    | Except.ok _ => none
    | Except.error e => some (LogEvent.orchestrator_notification_failed e))

/-- The status-transition edges of spec section 4.3:
`pending → in_progress` (dependencies satisfied), `in_progress → completed`
(work succeeds), `in_progress → pending` (retry), `in_progress → failed`. -/
def status_edge (a b : TaskStatus) : Bool :=
  match a, b with
  | TaskStatus.pending, TaskStatus.in_progress => true
  | TaskStatus.in_progress, TaskStatus.completed => true
  | TaskStatus.in_progress, TaskStatus.pending => true
  | TaskStatus.in_progress, TaskStatus.failed => true
  | _, _ => false

/-- Number of execution attempts of a task recorded in the log: one
`task_started` entry is logged at the head of `_execute_task` each time the
task's work is attempted. -/
def attempt_count (id : String) (log : List LogEvent) : Nat :=
  (log.filter (fun e => match e with
    | LogEvent.task_started i => i == id
    | _ => false)).length

/-- Number of `task_retry` entries for a task in the log. -/
def retry_event_count (id : String) (log : List LogEvent) : Nat :=
  (log.filter (fun e => match e with
    | LogEvent.task_retry i _ _ => i == id
    | _ => false)).length

/-- Number of `task_failed` entries for a task in the log. -/
def failed_event_count (id : String) (log : List LogEvent) : Nat :=
  (log.filter (fun e => match e with
    | LogEvent.task_failed i _ _ => i == id
    | _ => false)).length

/-- The spec's 4.2 edge case: some pending task of the queue declares a
dependency identifier carried by no task anywhere in the task universe.
Since tasks reach the completed history only from the universe, such an
identifier is never added to the completed set. -/
def permanently_blocked (s : ManagerState) : Prop :=
  ∃ t ∈ s.task_queue, t.status = TaskStatus.pending ∧
    ∃ d ∈ t.dependencies, ∀ x ∈ all_tasks s, x.task_id ≠ d

instance (s : ManagerState) : Decidable (permanently_blocked s) := by
  unfold permanently_blocked
  infer_instance

/-- Modelled from the claim's words (for comparison with
`determine_current_phase`, which is translated from the source): the phase
label is "Discovery & Planning" exactly when the completed history is empty;
otherwise it compares the completed-task count against the 50 percent and
75 percent thresholds of the total number of known tasks. -/
def claimed_phase_label (completedCount totalKnown : Nat) : String :=
  if completedCount = 0 then "Discovery & Planning"
  else if (completedCount : ℚ) < (totalKnown : ℚ) * (1 / 2 : ℚ) then "Core Implementation"
  else if (completedCount : ℚ) < (totalKnown : ℚ) * (3 / 4 : ℚ) then "Validation & Security"
  else "Integration & Completion"

/-! ## Concrete fixtures for counterexamples and witnesses -/

/-- A minimal pending task with no dependencies and retry budget `m`. -/
def sample_task (id : String) (deps : List String) (m : Nat) : AutonomousTask :=
  { task_id := id, description := "sample work", agent_type := AgentType.orchestrator,
    priority := TaskPriority.high, status := TaskStatus.pending,
    dependencies := deps, skills_required := [], commands_to_execute := [],
    expected_deliverables := [], max_retry_attempts := m }

/-- A fresh manager state holding the given queue. -/
def initial_state (ts : List AutonomousTask) : ManagerState :=
  { session_id := "session", task_queue := ts, active_tasks := [],
    completed_tasks := [], execution_log := [], clock := 0 }

/-- A work callback that raises on every attempt. -/
def failing_work : AutonomousTask → Except String Unit := fun _ => Except.error "boom"

/-- The always-succeeding stub of the source. -/
def stub_work : AutonomousTask → Except String Unit := fun _ => Except.ok ()

/-- A state with one completed task and one still-pending task: the
completed count (1) is exactly the 50 percent threshold of the total (2),
so the claimed rule labels the phase "Validation & Security". -/
def phase_counterexample_state : ManagerState :=
  { session_id := "session", task_queue := [sample_task "B" [] 3], active_tasks := [],
    completed_tasks := [{ sample_task "A" [] 3 with status := TaskStatus.completed }],
    execution_log := [], clock := 0 }

/-- A two-task state for the C3 witness: B depends on the completed task A. -/
def c3_state : ManagerState :=
  { session_id := "session", task_queue := [sample_task "B" ["A"] 3],
    active_tasks := [],
    completed_tasks := [{ sample_task "A" [] 3 with status := TaskStatus.completed }],
    execution_log := [], clock := 0 }

/-! ## Projection lemmas for the task-version functions -/

@[simp] theorem in_progress_version_task_id (clk : Nat) (t : AutonomousTask) :
    (in_progress_version clk t).task_id = t.task_id := rfl

@[simp] theorem in_progress_version_dependencies (clk : Nat) (t : AutonomousTask) :
    (in_progress_version clk t).dependencies = t.dependencies := rfl

@[simp] theorem in_progress_version_status (clk : Nat) (t : AutonomousTask) :
    (in_progress_version clk t).status = TaskStatus.in_progress := rfl

@[simp] theorem in_progress_version_retry_count (clk : Nat) (t : AutonomousTask) :
    (in_progress_version clk t).retry_count = t.retry_count := rfl

@[simp] theorem in_progress_version_max_retry (clk : Nat) (t : AutonomousTask) :
    (in_progress_version clk t).max_retry_attempts = t.max_retry_attempts := rfl

@[simp] theorem in_progress_version_error_log (clk : Nat) (t : AutonomousTask) :
    (in_progress_version clk t).error_log = t.error_log := rfl

@[simp] theorem success_version_task_id (clk : Nat) (t : AutonomousTask) :
    (success_version clk t).task_id = t.task_id := rfl

@[simp] theorem success_version_dependencies (clk : Nat) (t : AutonomousTask) :
    (success_version clk t).dependencies = t.dependencies := rfl

@[simp] theorem success_version_status (clk : Nat) (t : AutonomousTask) :
    (success_version clk t).status = TaskStatus.completed := rfl

@[simp] theorem record_error_task_id (clk : Nat) (e : String) (t : AutonomousTask) :
    (record_error clk e t).task_id = t.task_id := rfl

@[simp] theorem record_error_retry_count (clk : Nat) (e : String) (t : AutonomousTask) :
    (record_error clk e t).retry_count = t.retry_count + 1 := rfl

@[simp] theorem record_error_max_retry (clk : Nat) (e : String) (t : AutonomousTask) :
    (record_error clk e t).max_retry_attempts = t.max_retry_attempts := rfl

@[simp] theorem retry_version_task_id (clk : Nat) (e : String) (t : AutonomousTask) :
    (retry_version clk e t).task_id = t.task_id := rfl

@[simp] theorem retry_version_dependencies (clk : Nat) (e : String) (t : AutonomousTask) :
    (retry_version clk e t).dependencies = t.dependencies := rfl

@[simp] theorem retry_version_status (clk : Nat) (e : String) (t : AutonomousTask) :
    (retry_version clk e t).status = TaskStatus.pending := rfl

@[simp] theorem retry_version_retry_count (clk : Nat) (e : String) (t : AutonomousTask) :
    (retry_version clk e t).retry_count = t.retry_count + 1 := rfl

@[simp] theorem retry_version_max_retry (clk : Nat) (e : String) (t : AutonomousTask) :
    (retry_version clk e t).max_retry_attempts = t.max_retry_attempts := rfl

@[simp] theorem retry_version_error_log (clk : Nat) (e : String) (t : AutonomousTask) :
    (retry_version clk e t).error_log =
      t.error_log ++ [toString clk ++ ": " ++ e] := rfl

@[simp] theorem fail_version_task_id (clk : Nat) (e : String) (t : AutonomousTask) :
    (fail_version clk e t).task_id = t.task_id := rfl

@[simp] theorem fail_version_dependencies (clk : Nat) (e : String) (t : AutonomousTask) :
    (fail_version clk e t).dependencies = t.dependencies := rfl

@[simp] theorem fail_version_status (clk : Nat) (e : String) (t : AutonomousTask) :
    (fail_version clk e t).status = TaskStatus.failed := rfl

@[simp] theorem fail_version_retry_count (clk : Nat) (e : String) (t : AutonomousTask) :
    (fail_version clk e t).retry_count = t.retry_count + 1 := rfl

@[simp] theorem fail_version_error_log (clk : Nat) (e : String) (t : AutonomousTask) :
    (fail_version clk e t).error_log =
      t.error_log ++ [toString clk ++ ": " ++ e] := rfl

/-! ## Basic lemmas about the map operations -/

theorem upsert_upsert (m : List (String × AutonomousTask)) (k : String)
    (v w : AutonomousTask) : upsert (upsert m k v) k w = upsert m k w := by
  induction m with
  | nil => simp [upsert]
  | cons p rest ih =>
      obtain ⟨k1, v1⟩ := p
      by_cases h : k1 = k
      · simp [upsert, h]
      · simp [upsert, h, ih]

theorem lookupA_upsert (m : List (String × AutonomousTask)) (k : String)
    (v : AutonomousTask) : lookupA (upsert m k v) k = some v := by
  induction m with
  | nil => simp [upsert, lookupA]
  | cons p rest ih =>
      obtain ⟨k1, v1⟩ := p
      by_cases h : k1 = k
      · simp [upsert, h, lookupA]
      · simp [upsert, h, lookupA, ih]

theorem upsert_length_of_mem (m : List (String × AutonomousTask)) (k : String)
    (v : AutonomousTask) (h : k ∈ m.map Prod.fst) :
    (upsert m k v).length = m.length := by
  induction m with
  | nil => simp at h
  | cons p rest ih =>
      obtain ⟨k1, v1⟩ := p
      by_cases hk : k1 = k
      · simp [upsert, hk]
      · simp [upsert, hk]
        apply ih
        simp only [List.map_cons, List.mem_cons] at h
        rcases h with h | h
        · exact absurd h.symm hk
        · exact h

theorem mem_map_snd_upsert (m : List (String × AutonomousTask)) (k : String)
    (v x : AutonomousTask) (hx : x ∈ (upsert m k v).map Prod.snd) :
    x ∈ m.map Prod.snd ∨ x = v := by
  induction m with
  | nil => simp [upsert] at hx; right; exact hx
  | cons p rest ih =>
      obtain ⟨k1, v1⟩ := p
      by_cases h : k1 = k
      · simp only [upsert, h, if_pos, List.map_cons, List.mem_cons] at hx
        rcases hx with hx | hx
        · right; exact hx
        · left; simp only [List.map_cons, List.mem_cons]; right; exact hx
      · simp only [upsert, h, if_neg, ite_false, List.map_cons, List.mem_cons] at hx
        rcases hx with hx | hx
        · left; simp only [List.map_cons, List.mem_cons]; left; exact hx
        · rcases ih hx with h1 | h1
          · left; simp only [List.map_cons, List.mem_cons]; right; exact h1
          · right; exact h1

/-! ## Field-preservation lemmas for the runner operations -/

theorem execute_task_clock (work : AutonomousTask → Except String Unit)
    (s : ManagerState) (t : AutonomousTask) :
    (execute_task work s t).clock = s.clock := by
  simp only [execute_task]
  cases work (in_progress_version s.clock t) with
  | ok _ => rfl
  | error e =>
      simp only [handle_task_error]
      split <;> rfl

theorem execute_task_session (work : AutonomousTask → Except String Unit)
    (s : ManagerState) (t : AutonomousTask) :
    (execute_task work s t).session_id = s.session_id := by
  simp only [execute_task]
  cases work (in_progress_version s.clock t) with
  | ok _ => rfl
  | error e =>
      simp only [handle_task_error]
      split <;> rfl

theorem execute_task_completed_tasks (work : AutonomousTask → Except String Unit)
    (s : ManagerState) (t : AutonomousTask) :
    (execute_task work s t).completed_tasks = s.completed_tasks := by
  simp only [execute_task]
  cases work (in_progress_version s.clock t) with
  | ok _ => rfl
  | error e =>
      simp only [handle_task_error]
      split <;> rfl

theorem execute_task_queue_extends (work : AutonomousTask → Except String Unit)
    (s : ManagerState) (t : AutonomousTask) :
    ∃ ext, (execute_task work s t).task_queue = s.task_queue ++ ext := by
  simp only [execute_task]
  cases work (in_progress_version s.clock t) with
  | ok _ => exact ⟨[], by simp⟩
  | error e =>
      simp only [handle_task_error]
      split
      · exact ⟨[retry_version s.clock e (in_progress_version s.clock t)], rfl⟩
      · exact ⟨[], by simp⟩

theorem foldl_execute_clock (work : AutonomousTask → Except String Unit) :
    ∀ (ts : List AutonomousTask) (s : ManagerState),
      (ts.foldl (execute_task work) s).clock = s.clock := by
  intro ts
  induction ts with
  | nil => intro s; rfl
  | cons t rest ih =>
      intro s
      simp only [List.foldl_cons]
      rw [ih, execute_task_clock]

theorem foldl_execute_completed_tasks (work : AutonomousTask → Except String Unit) :
    ∀ (ts : List AutonomousTask) (s : ManagerState),
      (ts.foldl (execute_task work) s).completed_tasks = s.completed_tasks := by
  intro ts
  induction ts with
  | nil => intro s; rfl
  | cons t rest ih =>
      intro s
      simp only [List.foldl_cons]
      rw [ih, execute_task_completed_tasks]

theorem foldl_execute_queue_extends (work : AutonomousTask → Except String Unit) :
    ∀ (ts : List AutonomousTask) (s : ManagerState),
      ∃ ext, (ts.foldl (execute_task work) s).task_queue = s.task_queue ++ ext := by
  intro ts
  induction ts with
  | nil => intro s; exact ⟨[], by simp⟩
  | cons t rest ih =>
      intro s
      simp only [List.foldl_cons]
      obtain ⟨e1, he1⟩ := execute_task_queue_extends work s t
      obtain ⟨e2, he2⟩ := ih (execute_task work s t)
      exact ⟨e1 ++ e2, by rw [he2, he1, List.append_assoc]⟩

theorem check_task_completion_queue (s : ManagerState) :
    (check_task_completion s).task_queue = s.task_queue := rfl

theorem check_task_completion_clock (s : ManagerState) :
    (check_task_completion s).clock = s.clock := rfl

theorem check_task_completion_completed (s : ManagerState) :
    (check_task_completion s).completed_tasks =
      s.completed_tasks ++ (s.active_tasks.filter (fun p => is_terminal p.2)).map Prod.snd := rfl

/-- `_notify_orchestrator` only appends the failure entries to the log:
every other field of the state is untouched. -/
theorem notify_orchestrator_spec
    (callbacks : List (ExecutionReport → Except String Unit))
    (s : ManagerState) (report : ExecutionReport) :
    notify_orchestrator callbacks s report =
      { s with execution_log := s.execution_log ++ notification_failures callbacks report } := by
  induction callbacks generalizing s with
  | nil => simp [notify_orchestrator, notification_failures]
  | cons cb rest ih =>
      simp only [notify_orchestrator, List.foldl_cons] at *
      cases h : cb report with
      | ok a =>
          dsimp only
          rw [ih]
          simp [notification_failures, List.filterMap_cons, h]
      | error e =>
          dsimp only
          rw [ih]
          simp [notification_failures, List.filterMap_cons, h, List.append_assoc]

/-! ## Report projection lemmas -/

theorem report_total_tasks (s : ManagerState) :
    (generate_progress_report s).total_tasks =
      s.task_queue.length + s.active_tasks.length + s.completed_tasks.length := rfl

theorem report_completed_count (s : ManagerState) :
    (generate_progress_report s).completed_tasks =
      (s.completed_tasks.filter (fun t => t.status == TaskStatus.completed)).length := rfl

theorem report_failed_count (s : ManagerState) :
    (generate_progress_report s).failed_tasks =
      (s.completed_tasks.filter (fun t => t.status == TaskStatus.failed)).length := rfl

theorem report_blocked_count (s : ManagerState) :
    (generate_progress_report s).blocked_tasks =
      (s.active_tasks.filter (fun p => p.2.status == TaskStatus.blocked)).length := rfl

/-! ## The task records an execution step can produce -/

theorem execute_outcomes_fields (work : AutonomousTask → Except String Unit)
    (clk : Nat) (t x : AutonomousTask) (hx : x ∈ execute_outcomes work clk t) :
    x.task_id = t.task_id ∧ x.dependencies = t.dependencies ∧
      (x.status = TaskStatus.completed ∨ x.status = TaskStatus.pending ∨
       x.status = TaskStatus.failed) := by
  simp only [execute_outcomes] at hx
  cases hw : work (in_progress_version clk t) with
  | ok a =>
      rw [hw] at hx
      simp only [List.mem_singleton] at hx
      subst hx
      exact ⟨rfl, rfl, Or.inl rfl⟩
  | error e =>
      rw [hw] at hx
      dsimp only at hx
      by_cases hc : (record_error clk e (in_progress_version clk t)).retry_count <
          (record_error clk e (in_progress_version clk t)).max_retry_attempts
      · rw [if_pos hc] at hx
        simp only [List.mem_singleton] at hx
        subst hx
        exact ⟨rfl, rfl, Or.inr (Or.inl rfl)⟩
      · rw [if_neg hc] at hx
        simp only [List.mem_singleton] at hx
        subst hx
        exact ⟨rfl, rfl, Or.inr (Or.inr rfl)⟩

/-- Every task record held after `_execute_task` was already held before, or
is one of the outcome versions of the executed task. -/
theorem mem_all_tasks_execute (work : AutonomousTask → Except String Unit)
    (s : ManagerState) (t x : AutonomousTask)
    (hx : x ∈ all_tasks (execute_task work s t)) :
    x ∈ all_tasks s ∨ x ∈ execute_outcomes work s.clock t := by
  simp only [execute_task, execute_outcomes] at *
  cases hw : work (in_progress_version s.clock t) with
  | ok a =>
      rw [hw] at hx
      dsimp only at hx
      simp only [all_tasks, in_progress_version_task_id, success_version_task_id,
        upsert_upsert, List.mem_append] at hx ⊢
      rcases hx with (hx | hx) | hx
      · exact Or.inl (Or.inl (Or.inl hx))
      · rcases mem_map_snd_upsert _ _ _ _ hx with h1 | h1
        · exact Or.inl (Or.inl (Or.inr h1))
        · right; simp [h1]
      · exact Or.inl (Or.inr hx)
  | error e =>
      rw [hw] at hx
      dsimp only at hx
      simp only [handle_task_error] at hx
      by_cases hc : (record_error s.clock e (in_progress_version s.clock t)).retry_count <
          (record_error s.clock e (in_progress_version s.clock t)).max_retry_attempts
      · rw [if_pos hc] at hx
        simp only [all_tasks, in_progress_version_task_id, retry_version_task_id,
          upsert_upsert, List.mem_append] at hx ⊢
        rcases hx with (hx | hx) | hx
        · simp only [List.mem_append, List.mem_singleton] at hx
          rcases hx with hx | hx
          · exact Or.inl (Or.inl (Or.inl hx))
          · right; rw [if_pos hc]; simp [hx]
        · rcases mem_map_snd_upsert _ _ _ _ hx with h1 | h1
          · exact Or.inl (Or.inl (Or.inr h1))
          · right; rw [if_pos hc]; simp [h1]
        · exact Or.inl (Or.inr hx)
      · rw [if_neg hc] at hx
        simp only [all_tasks, in_progress_version_task_id, fail_version_task_id,
          upsert_upsert, List.mem_append] at hx ⊢
        rcases hx with (hx | hx) | hx
        · exact Or.inl (Or.inl (Or.inl hx))
        · rcases mem_map_snd_upsert _ _ _ _ hx with h1 | h1
          · exact Or.inl (Or.inl (Or.inr h1))
          · right; rw [if_neg hc]; simp [h1]
        · exact Or.inl (Or.inr hx)

theorem mem_all_tasks_foldl (work : AutonomousTask → Except String Unit) :
    ∀ (ts : List AutonomousTask) (s : ManagerState) (x : AutonomousTask),
      x ∈ all_tasks (ts.foldl (execute_task work) s) →
        x ∈ all_tasks s ∨ ∃ t ∈ ts, x ∈ execute_outcomes work s.clock t := by
  intro ts
  induction ts with
  | nil => intro s x hx; exact Or.inl hx
  | cons t rest ih =>
      intro s x hx
      simp only [List.foldl_cons] at hx
      rcases ih (execute_task work s t) x hx with h1 | h1
      · rcases mem_all_tasks_execute work s t x h1 with h2 | h2
        · exact Or.inl h2
        · exact Or.inr ⟨t, List.mem_cons_self t rest, h2⟩
      · obtain ⟨u, hu, hxu⟩ := h1
        rw [execute_task_clock] at hxu
        exact Or.inr ⟨u, List.mem_cons_of_mem t hu, hxu⟩

theorem mem_all_tasks_check (s : ManagerState) (x : AutonomousTask)
    (hx : x ∈ all_tasks (check_task_completion s)) : x ∈ all_tasks s := by
  simp only [all_tasks, check_task_completion, List.mem_append] at hx ⊢
  rcases hx with (hx | hx) | hx
  · exact Or.inl (Or.inl hx)
  · simp only [List.mem_map] at hx
    obtain ⟨p, hp, hpx⟩ := hx
    rw [List.mem_filter] at hp
    exact Or.inl (Or.inr (List.mem_map.mpr ⟨p, hp.1, hpx⟩))
  · rcases hx with hx | hx
    · exact Or.inr hx
    · simp only [List.mem_map] at hx
      obtain ⟨p, hp, hpx⟩ := hx
      rw [List.mem_filter] at hp
      exact Or.inl (Or.inr (List.mem_map.mpr ⟨p, hp.1, hpx⟩))

/-- Every task record held after one loop iteration was already held before,
or is an outcome version of one of the ready tasks of that iteration. -/
theorem mem_all_tasks_tick (work : AutonomousTask → Except String Unit)
    (callbacks : List (ExecutionReport → Except String Unit))
    (s : ManagerState) (x : AutonomousTask)
    (hx : x ∈ all_tasks (tick work callbacks s)) :
    x ∈ all_tasks s ∨
      ∃ t ∈ (find_ready_tasks s.task_queue (completed_task_ids s)).1,
        x ∈ execute_outcomes work s.clock t := by
  simp only [tick] at hx
  have hclock : ∀ (s4 : ManagerState) (n : Nat),
      all_tasks { s4 with clock := n } = all_tasks s4 := fun _ _ => rfl
  rw [hclock] at hx
  set pr := find_ready_tasks s.task_queue (completed_task_ids s) with hpr
  set s1 : ManagerState := { s with task_queue := pr.2 } with hs1
  set s2 := pr.1.foldl (execute_task work) s1 with hs2
  set s3 := check_task_completion s2 with hs3
  have hx3 : x ∈ all_tasks s3 := by
    by_cases hready : pr.1.isEmpty
    · rw [if_pos hready] at hx; exact hx
    · rw [if_neg hready, notify_orchestrator_spec] at hx
      exact hx
  have hx2 : x ∈ all_tasks s2 := mem_all_tasks_check s2 x hx3
  rcases mem_all_tasks_foldl work pr.1 s1 x hx2 with h1 | h1
  · left
    simp only [all_tasks, hs1, List.mem_append] at h1 ⊢
    rcases h1 with (h1 | h1) | h1
    · refine Or.inl (Or.inl ?_)
      rw [hpr] at h1
      simp only [find_ready_tasks, List.partition_eq_filter_filter] at h1
      exact (List.mem_filter.mp h1).1
    · exact Or.inl (Or.inr h1)
    · exact Or.inr h1
  · obtain ⟨u, hu, hxu⟩ := h1
    have : s1.clock = s.clock := rfl
    rw [this] at hxu
    exact Or.inr ⟨u, hu, hxu⟩

/-- The ready tasks are pending tasks of the queue whose dependencies are all
in the completed set. -/
theorem find_ready_tasks_spec (queue : List AutonomousTask)
    (completed_ids : List String) (t : AutonomousTask)
    (ht : t ∈ (find_ready_tasks queue completed_ids).1) :
    t ∈ queue ∧ t.status = TaskStatus.pending ∧
      ∀ d ∈ t.dependencies, d ∈ completed_ids := by
  simp only [find_ready_tasks, List.partition_eq_filter_filter] at ht
  rw [List.mem_filter] at ht
  obtain ⟨hmem, hready⟩ := ht
  simp only [is_ready, deps_satisfied, Bool.and_eq_true, beq_iff_eq,
    List.all_eq_true] at hready
  refine ⟨hmem, hready.1, fun d hd => ?_⟩
  exact List.mem_of_elem_eq_true (hready.2 d hd)

/-! ## Arithmetic form of the phase comparisons -/

theorem phase_cond_half (q a c : Nat) :
    ((c : ℚ) < (q : ℚ) + (a : ℚ) + (c : ℚ) * (1 / 2 : ℚ)) ↔ c < 2 * (q + a) := by
  rw [show (c < 2 * (q + a)) ↔ ((c : ℚ) < ((2 * (q + a) : Nat) : ℚ)) from Nat.cast_lt.symm]
  push_cast
  constructor <;> intro h <;> linarith

theorem phase_cond_quarter (q a c : Nat) :
    ((c : ℚ) < (q : ℚ) + (a : ℚ) + (c : ℚ) * (3 / 4 : ℚ)) ↔ c < 4 * (q + a) := by
  rw [show (c < 4 * (q + a)) ↔ ((c : ℚ) < ((4 * (q + a) : Nat) : ℚ)) from Nat.cast_lt.symm]
  push_cast
  constructor <;> intro h <;> linarith

/-! ## Claim C4: the Readiness Selector is not idempotent as claimed -/

/-- C4, counterexample: on a queue holding one ready task, the selector's
first invocation returns that task and removes it from the queue, so the
second invocation (with no mutation other than the selector's own) returns a
different result — refuting the claim that both invocations return the same
result. -/
theorem c4_counterexample :
    (find_ready_tasks
        (find_ready_tasks [sample_task "A" [] 3] []).2 []).1 ≠
      (find_ready_tasks [sample_task "A" [] 3] []).1 := by
  decide

/-- C4 (amended): invoking the Readiness Selector a second time on the queue
left behind by the first invocation selects nothing: the second result is the
empty list and the queue is unchanged.  (The selector is deterministic, but
it mutates the queue, so the two successive results agree only when the first
result is already empty.) -/
theorem c4_selector_second_call_selects_nothing
    (queue : List AutonomousTask) (completed_ids : List String) :
    find_ready_tasks (find_ready_tasks queue completed_ids).2 completed_ids =
      ([], (find_ready_tasks queue completed_ids).2) := by
  simp only [find_ready_tasks, List.partition_eq_filter_filter, Prod.mk.injEq]
  constructor
  · rw [List.filter_filter]
    apply List.filter_eq_nil_iff.mpr
    intro a _
    cases h : is_ready completed_ids a <;> simp [h]
  · rw [List.filter_filter]
    apply List.filter_congr
    intro a _
    cases h : is_ready completed_ids a <;> simp [h]

/-! ## Claim C5: the phase thresholds are not fractions of the total -/

/-- The source's phase computation, with the rational comparisons rewritten
into equivalent natural-number comparisons. -/
theorem determine_current_phase_nat_form (s : ManagerState) :
    determine_current_phase s =
      (if s.completed_tasks.length = 0 then "Discovery & Planning"
       else if s.completed_tasks.length <
           2 * (s.task_queue.length + s.active_tasks.length) then "Core Implementation"
       else if s.completed_tasks.length <
           4 * (s.task_queue.length + s.active_tasks.length) then "Validation & Security"
       else "Integration & Completion") := by
  unfold determine_current_phase
  rw [show s.completed_tasks.isEmpty = (s.completed_tasks.length == 0) from by
    cases s.completed_tasks <;> rfl]
  rcases Nat.eq_zero_or_pos s.completed_tasks.length with h0 | h0
  · simp [h0]
  · have hne : ¬ s.completed_tasks.length = 0 := by omega
    simp only [hne, beq_iff_eq, if_false, ite_false]
    by_cases h1 : s.completed_tasks.length <
        2 * (s.task_queue.length + s.active_tasks.length)
    · rw [if_pos ((phase_cond_half _ _ _).mpr h1), if_pos h1]
    · rw [if_neg (fun hq => h1 ((phase_cond_half _ _ _).mp hq)), if_neg h1]
      by_cases h2 : s.completed_tasks.length <
          4 * (s.task_queue.length + s.active_tasks.length)
      · rw [if_pos ((phase_cond_quarter _ _ _).mpr h2), if_pos h2]
      · rw [if_neg (fun hq => h2 ((phase_cond_quarter _ _ _).mp hq)), if_neg h2]

/-- The claimed threshold rule, with the rational comparisons rewritten into
equivalent natural-number comparisons. -/
theorem claimed_phase_label_nat_form (c n : Nat) :
    claimed_phase_label c n =
      (if c = 0 then "Discovery & Planning"
       else if 2 * c < n then "Core Implementation"
       else if 4 * c < 3 * n then "Validation & Security"
       else "Integration & Completion") := by
  unfold claimed_phase_label
  have hhalf : ((c : ℚ) < (n : ℚ) * (1 / 2 : ℚ)) ↔ 2 * c < n := by
    rw [show (2 * c < n) ↔ (((2 * c : Nat) : ℚ) < ((n : Nat) : ℚ)) from Nat.cast_lt.symm]
    push_cast
    constructor <;> intro h <;> linarith
  have hquarter : ((c : ℚ) < (n : ℚ) * (3 / 4 : ℚ)) ↔ 4 * c < 3 * n := by
    rw [show (4 * c < 3 * n) ↔ (((4 * c : Nat) : ℚ) < ((3 * n : Nat) : ℚ)) from
      Nat.cast_lt.symm]
    push_cast
    constructor <;> intro h <;> linarith
  rcases Nat.eq_zero_or_pos c with h0 | h0
  · simp [h0]
  · have hne : ¬ c = 0 := by omega
    simp only [hne, if_false, ite_false]
    by_cases h1 : 2 * c < n
    · rw [if_pos (hhalf.mpr h1), if_pos h1]
    · rw [if_neg (fun hq => h1 (hhalf.mp hq)), if_neg h1]
      by_cases h2 : 4 * c < 3 * n
      · rw [if_pos (hquarter.mpr h2), if_pos h2]
      · rw [if_neg (fun hq => h2 (hquarter.mp hq)), if_neg h2]

/-- C5, counterexample: with 1 completed task out of 2 known tasks the source
computes `1 < 1 + 0 + 1 * 0.5` (true) and labels the phase
"Core Implementation", while the claimed 50-percent-of-total rule yields
"Validation & Security": the source's comparison is not against a
percentage of the total. -/
theorem c5_counterexample :
    determine_current_phase phase_counterexample_state = "Core Implementation" ∧
    claimed_phase_label
        ((phase_counterexample_state.completed_tasks.filter
            (fun t => t.status == TaskStatus.completed)).length)
        (phase_counterexample_state.task_queue.length +
          phase_counterexample_state.active_tasks.length +
          phase_counterexample_state.completed_tasks.length) = "Validation & Security" ∧
    determine_current_phase phase_counterexample_state ≠
      claimed_phase_label
        ((phase_counterexample_state.completed_tasks.filter
            (fun t => t.status == TaskStatus.completed)).length)
        (phase_counterexample_state.task_queue.length +
          phase_counterexample_state.active_tasks.length +
          phase_counterexample_state.completed_tasks.length) := by
  rw [determine_current_phase_nat_form, claimed_phase_label_nat_form]
  refine ⟨by decide, by decide, by decide⟩

/-- C5 (amended): the phase label is "Discovery & Planning" exactly when the
completed history is empty; otherwise the source's self-referential float
comparison `completed < queue + active + completed * 0.5` (resp. `* 0.75`)
is equivalent to comparing the completed count against 2 times (resp. 4
times) the number of not-yet-finished tasks, not against percentages of the
total. -/
theorem c5_phase_label_amended (s : ManagerState) :
    determine_current_phase s =
      (if s.completed_tasks.length = 0 then "Discovery & Planning"
       else if s.completed_tasks.length <
           2 * (s.task_queue.length + s.active_tasks.length) then "Core Implementation"
       else if s.completed_tasks.length <
           4 * (s.task_queue.length + s.active_tasks.length) then "Validation & Security"
       else "Integration & Completion") :=
  determine_current_phase_nat_form s

/-! ## Claim C6: the final report carries a fifth phase label -/

/-- C6, counterexample: running the manager on an empty queue, the final
report returned by `start_autonomous_execution` has
`current_phase = "Completed"`, which is none of the fourphase labels the
claim allows. -/
theorem c6_counterexample :
    (start_autonomous_execution stub_work [] 0 (initial_state [])).map
        (fun p => p.2.current_phase) = some "Completed" ∧
    ¬ ("Completed" ∈ ["Discovery & Planning", "Core Implementation",
        "Validation & Security", "Integration & Completion"]) := by
  refine ⟨rfl, ?_⟩
  decide

/-- C6 (amended): every progress report generated by
`_generate_progress_report` has one of the four phase labels, while the
final report of a run always has the fifth label "Completed" (set by
`_generate_final_report`). -/
theorem c6_phase_labels_amended :
    (∀ s : ManagerState, (generate_progress_report s).current_phase ∈
      ["Discovery & Planning", "Core Implementation", "Validation & Security",
       "Integration & Completion"]) ∧
    (∀ s : ManagerState, (generate_final_report s).current_phase = "Completed") := by
  constructor
  · intro s
    show determine_current_phase s ∈ _
    unfold determine_current_phase
    split_ifs <;> simp
  · intro s
    rfl

/-! ## Claim C7: observer notification is isolated and non-fatal -/

/-- C7: every registered callback is invoked with the report, in order; a
callback that raises has its exception caught and logged as an
`orchestrator_notification_failed` event, after which the remaining
callbacks are still invoked; and the notification changes nothing but the
log, so the execution loop is unaffected. -/
theorem c7_observer_notification_isolated
    (callbacks pre post : List (ExecutionReport → Except String Unit))
    (cb : ExecutionReport → Except String Unit) (e : String)
    (s : ManagerState) (report : ExecutionReport)
    (hsplit : callbacks = pre ++ cb :: post) (herr : cb report = Except.error e) :
    notify_orchestrator callbacks s report =
      notify_orchestrator post
        (log_event (notify_orchestrator pre s report)
          (LogEvent.orchestrator_notification_failed e)) report ∧
    (notify_orchestrator callbacks s report).task_queue = s.task_queue ∧
    (notify_orchestrator callbacks s report).active_tasks = s.active_tasks ∧
    (notify_orchestrator callbacks s report).completed_tasks = s.completed_tasks ∧
    (notify_orchestrator callbacks s report).clock = s.clock ∧
    (notify_orchestrator callbacks s report).execution_log =
      s.execution_log ++ notification_failures callbacks report := by
  subst hsplit
  refine ⟨?_, ?_, ?_, ?_, ?_, ?_⟩
  · simp only [notify_orchestrator, log_event, List.foldl_append, List.foldl_cons, herr]
  · rw [notify_orchestrator_spec]
  · rw [notify_orchestrator_spec]
  · rw [notify_orchestrator_spec]
  · rw [notify_orchestrator_spec]
  · rw [notify_orchestrator_spec]

/-- Witness for C7 at a concrete callback list with one raising callback. -/
theorem c7_witness :
    notify_orchestrator [fun _ => Except.error "observer down"] (initial_state [])
        (generate_progress_report (initial_state [])) =
      notify_orchestrator []
        (log_event (notify_orchestrator [] (initial_state [])
            (generate_progress_report (initial_state [])))
          (LogEvent.orchestrator_notification_failed "observer down"))
        (generate_progress_report (initial_state [])) ∧
    (notify_orchestrator [fun _ => Except.error "observer down"] (initial_state [])
        (generate_progress_report (initial_state []))).task_queue =
      (initial_state []).task_queue ∧
    (notify_orchestrator [fun _ => Except.error "observer down"] (initial_state [])
        (generate_progress_report (initial_state []))).active_tasks =
      (initial_state []).active_tasks ∧
    (notify_orchestrator [fun _ => Except.error "observer down"] (initial_state [])
        (generate_progress_report (initial_state []))).completed_tasks =
      (initial_state []).completed_tasks ∧
    (notify_orchestrator [fun _ => Except.error "observer down"] (initial_state [])
        (generate_progress_report (initial_state []))).clock =
      (initial_state []).clock ∧
    (notify_orchestrator [fun _ => Except.error "observer down"] (initial_state [])
        (generate_progress_report (initial_state []))).execution_log =
      (initial_state []).execution_log ++
        notification_failures [fun _ => Except.error "observer down"]
          (generate_progress_report (initial_state [])) :=
  c7_observer_notification_isolated
    [fun _ => Except.error "observer down"] [] []
    (fun _ => Except.error "observer down") "observer down"
    (initial_state []) (generate_progress_report (initial_state [])) rfl rfl

/-! ## Claim C8: completed + failed is non-decreasing across reports -/

/-- One loop iteration only ever appends to the completed history. -/
theorem tick_completed_extends (work : AutonomousTask → Except String Unit)
    (callbacks : List (ExecutionReport → Except String Unit)) (s : ManagerState) :
    ∃ ext, (tick work callbacks s).completed_tasks = s.completed_tasks ++ ext := by
  simp only [tick]
  set pr := find_ready_tasks s.task_queue (completed_task_ids s) with hpr
  set s1 : ManagerState := { s with task_queue := pr.2 } with hs1
  set s2 := pr.1.foldl (execute_task work) s1 with hs2
  set s3 := check_task_completion s2 with hs3
  have h2 : s2.completed_tasks = s.completed_tasks := by
    rw [hs2, foldl_execute_completed_tasks]
  have h3 : ∃ ext, s3.completed_tasks = s.completed_tasks ++ ext := by
    rw [hs3, check_task_completion_completed, h2]
    exact ⟨_, rfl⟩
  obtain ⟨ext, hext⟩ := h3
  refine ⟨ext, ?_⟩
  by_cases hready : pr.1.isEmpty
  · simp only [if_pos hready]
    exact hext
  · simp only [if_neg hready, notify_orchestrator_spec]
    exact hext

/-- C8: within one session, the sum `completed_tasks + failed_tasks` of a
progress report generated later (after any number of loop iterations) is at
least that of a report generated earlier; the final report carries the same
counts as the progress report of the same state. -/
theorem c8_progress_monotone (work : AutonomousTask → Except String Unit)
    (callbacks : List (ExecutionReport → Except String Unit))
    (s : ManagerState) (n : Nat) :
    (generate_progress_report s).completed_tasks +
        (generate_progress_report s).failed_tasks ≤
      (generate_progress_report ((tick work callbacks)^[n] s)).completed_tasks +
        (generate_progress_report ((tick work callbacks)^[n] s)).failed_tasks ∧
    (generate_final_report ((tick work callbacks)^[n] s)).completed_tasks +
        (generate_final_report ((tick work callbacks)^[n] s)).failed_tasks =
      (generate_progress_report ((tick work callbacks)^[n] s)).completed_tasks +
        (generate_progress_report ((tick work callbacks)^[n] s)).failed_tasks := by
  constructor
  · induction n with
    | zero => simp
    | succ n ih =>
        refine le_trans ih ?_
        rw [Function.iterate_succ_apply']
        obtain ⟨ext, hext⟩ :=
          tick_completed_extends work callbacks ((tick work callbacks)^[n] s)
        simp only [report_completed_count, report_failed_count, hext,
          List.filter_append, List.length_append]
        omega
  · rfl

/-! ## Claim C9: a retried task sits in both queue and active map -/

/-- C9: when a task's work raises and retry budget remains, `_execute_task`
re-appends the (pending) retry version to the task queue while the entry in
the active map is left in place (merely updated), so the task is present in
both collections; the progress report's `total_tasks` is the plain sum
`|queue| + |active| + |completed|`, which counts such a task twice: the
queue grows by one while the active map keeps its size (when the task was
already active) and the completed history is untouched. -/
theorem c9_retry_double_presence (work : AutonomousTask → Except String Unit)
    (s : ManagerState) (t : AutonomousTask) (e : String)
    (hstatus : t.status = TaskStatus.pending)
    (herr : work (in_progress_version s.clock t) = Except.error e)
    (hbudget : t.retry_count + 1 < t.max_retry_attempts) :
    (execute_task work s t).task_queue =
        s.task_queue ++ [retry_version s.clock e (in_progress_version s.clock t)] ∧
    (retry_version s.clock e (in_progress_version s.clock t)).status =
        TaskStatus.pending ∧
    (retry_version s.clock e (in_progress_version s.clock t)).task_id = t.task_id ∧
    lookupA (execute_task work s t).active_tasks t.task_id =
        some (retry_version s.clock e (in_progress_version s.clock t)) ∧
    (execute_task work s t).completed_tasks = s.completed_tasks ∧
    (generate_progress_report (execute_task work s t)).total_tasks =
        (execute_task work s t).task_queue.length +
          (execute_task work s t).active_tasks.length +
          (execute_task work s t).completed_tasks.length ∧
    (execute_task work s t).task_queue.length = s.task_queue.length + 1 ∧
    (t.task_id ∈ s.active_tasks.map Prod.fst →
        (execute_task work s t).active_tasks.length = s.active_tasks.length) := by
  have hcond : (record_error s.clock e (in_progress_version s.clock t)).retry_count <
      (record_error s.clock e (in_progress_version s.clock t)).max_retry_attempts := by
    simpa using hbudget
  simp only [execute_task, herr, handle_task_error]
  rw [if_pos hcond]
  refine ⟨rfl, rfl, rfl, ?_, rfl, rfl, by simp, ?_⟩
  · simp only [retry_version_task_id, in_progress_version_task_id, upsert_upsert]
    exact lookupA_upsert _ _ _
  · intro hmem
    simp only [retry_version_task_id, in_progress_version_task_id, upsert_upsert]
    exact upsert_length_of_mem _ _ _ hmem

/-- Witness for C9 at a concrete failing task with remaining retry budget. -/
theorem c9_witness :
    (execute_task failing_work (initial_state []) (sample_task "R" [] 3)).task_queue =
        (initial_state []).task_queue ++
          [retry_version 0 "boom" (in_progress_version 0 (sample_task "R" [] 3))] ∧
    (retry_version 0 "boom" (in_progress_version 0 (sample_task "R" [] 3))).status =
        TaskStatus.pending ∧
    (retry_version 0 "boom" (in_progress_version 0 (sample_task "R" [] 3))).task_id =
        (sample_task "R" [] 3).task_id ∧
    lookupA (execute_task failing_work (initial_state [])
          (sample_task "R" [] 3)).active_tasks (sample_task "R" [] 3).task_id =
        some (retry_version 0 "boom" (in_progress_version 0 (sample_task "R" [] 3))) ∧
    (execute_task failing_work (initial_state [])
        (sample_task "R" [] 3)).completed_tasks = (initial_state []).completed_tasks ∧
    (generate_progress_report (execute_task failing_work (initial_state [])
        (sample_task "R" [] 3))).total_tasks =
      (execute_task failing_work (initial_state [])
          (sample_task "R" [] 3)).task_queue.length +
        (execute_task failing_work (initial_state [])
            (sample_task "R" [] 3)).active_tasks.length +
        (execute_task failing_work (initial_state [])
            (sample_task "R" [] 3)).completed_tasks.length ∧
    (execute_task failing_work (initial_state [])
        (sample_task "R" [] 3)).task_queue.length =
      (initial_state []).task_queue.length + 1 ∧
    ((sample_task "R" [] 3).task_id ∈ (initial_state []).active_tasks.map Prod.fst →
      (execute_task failing_work (initial_state [])
          (sample_task "R" [] 3)).active_tasks.length =
        (initial_state []).active_tasks.length) :=
  c9_retry_double_presence failing_work (initial_state []) (sample_task "R" [] 3)
    "boom" rfl rfl (by decide)

/-! ## Claim C10: no operation sets `blocked` or `cancelled` -/

/-- C10: a loop iteration never introduces a task whose status is `BLOCKED`
or `CANCELLED` (every status it writes is `in_progress`, `completed`,
`pending` or `failed`, and the written records end an iteration with one of
the latter three), so the absence of those two statuses is an invariant of
the runner; and on any state without them the report's `blocked_tasks`
count is 0. -/
theorem c10_never_blocked_or_cancelled (work : AutonomousTask → Except String Unit)
    (callbacks : List (ExecutionReport → Except String Unit)) (s : ManagerState)
    (h : ∀ t ∈ all_tasks s,
      t.status ≠ TaskStatus.blocked ∧ t.status ≠ TaskStatus.cancelled) :
    (∀ t ∈ all_tasks (tick work callbacks s),
        t.status ≠ TaskStatus.blocked ∧ t.status ≠ TaskStatus.cancelled) ∧
    (generate_progress_report s).blocked_tasks = 0 := by
  constructor
  · intro x hx
    rcases mem_all_tasks_tick work callbacks s x hx with h1 | ⟨u, _, hxu⟩
    · exact h x h1
    · obtain ⟨-, -, hst⟩ := execute_outcomes_fields work s.clock u x hxu
      rcases hst with hst | hst | hst <;> simp [hst]
  · rw [report_blocked_count, List.length_eq_zero]
    apply List.filter_eq_nil_iff.mpr
    intro p hp
    have hmem : p.2 ∈ all_tasks s := by
      simp only [all_tasks, List.mem_append]
      exact Or.inl (Or.inr (List.mem_map.mpr ⟨p, hp, rfl⟩))
    simp [(h p.2 hmem).1]

/-- Witness for C10 at a concrete one-task state. -/
theorem c10_witness :
    ((success_version 0 (in_progress_version 0 (sample_task "A" [] 3))).status ≠
        TaskStatus.blocked ∧
      (success_version 0 (in_progress_version 0 (sample_task "A" [] 3))).status ≠
        TaskStatus.cancelled) ∧
    (generate_progress_report
        (initial_state [sample_task "A" [] 3])).blocked_tasks = 0 := by
  have H := c10_never_blocked_or_cancelled stub_work []
    (initial_state [sample_task "A" [] 3]) (by decide)
  exact ⟨H.1 _ (by decide), H.2⟩

/-! ## Claim C3: transitions follow the 4.3 edges, gated on dependencies -/

/-- C3: (1) every task selected by the Readiness Selector — and these are
exactly the tasks whose status `_execute_task` sets to `in_progress` in that
iteration — is pending with all of its dependency identifiers in the
completed set at that moment; (2) every task record held after a loop
iteration is either a record already held before it, or arose from a
selected (pending) task by the spec-4.3 edges: `pending → in_progress`
followed by one of `in_progress → completed | pending | failed`, with
identity and dependency list preserved. -/
theorem c3_status_transitions (work : AutonomousTask → Except String Unit)
    (callbacks : List (ExecutionReport → Except String Unit)) (s : ManagerState) :
    (∀ t ∈ (find_ready_tasks s.task_queue (completed_task_ids s)).1,
        t.status = TaskStatus.pending ∧
        ∀ d ∈ t.dependencies, d ∈ completed_task_ids s) ∧
    (∀ x ∈ all_tasks (tick work callbacks s),
        x ∈ all_tasks s ∨
        ∃ t ∈ (find_ready_tasks s.task_queue (completed_task_ids s)).1,
          x.task_id = t.task_id ∧ x.dependencies = t.dependencies ∧
          status_edge t.status TaskStatus.in_progress = true ∧
          status_edge TaskStatus.in_progress x.status = true) := by
  constructor
  · intro t ht
    obtain ⟨_, hp, hd⟩ := find_ready_tasks_spec _ _ _ ht
    exact ⟨hp, hd⟩
  · intro x hx
    rcases mem_all_tasks_tick work callbacks s x hx with h1 | ⟨u, hu, hxu⟩
    · exact Or.inl h1
    · right
      obtain ⟨hid, hdeps, hst⟩ := execute_outcomes_fields work s.clock u x hxu
      obtain ⟨-, hupend, -⟩ := find_ready_tasks_spec _ _ _ hu
      refine ⟨u, hu, hid, hdeps, ?_, ?_⟩
      · rw [hupend]; rfl
      · rcases hst with hst | hst | hst <;> rw [hst] <;> rfl

/-- Witness for C3 at the concrete state `c3_state`. -/
theorem c3_witness :
    ((sample_task "B" ["A"] 3).status = TaskStatus.pending ∧
      "A" ∈ completed_task_ids c3_state) ∧
    ({ sample_task "A" [] 3 with status := TaskStatus.completed } ∈ all_tasks c3_state ∨
      ∃ t ∈ (find_ready_tasks c3_state.task_queue (completed_task_ids c3_state)).1,
        ({ sample_task "A" [] 3 with status := TaskStatus.completed }).task_id =
            t.task_id ∧
        ({ sample_task "A" [] 3 with status := TaskStatus.completed }).dependencies =
            t.dependencies ∧
        status_edge t.status TaskStatus.in_progress = true ∧
        status_edge TaskStatus.in_progress
          ({ sample_task "A" [] 3 with status := TaskStatus.completed }).status = true) := by
  have H := c3_status_transitions stub_work [] c3_state
  refine ⟨?_, H.2 _ (by decide)⟩
  have h1 := H.1 (sample_task "B" ["A"] 3) (by decide)
  exact ⟨h1.1, h1.2 "A" (by decide)⟩

/-! ## Claim C2: loop exit condition and the permanently-blocked defect -/

@[simp] theorem clock_update_task_queue (s : ManagerState) (n : Nat) :
    ({ s with clock := n } : ManagerState).task_queue = s.task_queue := rfl

@[simp] theorem clock_update_active_tasks (s : ManagerState) (n : Nat) :
    ({ s with clock := n } : ManagerState).active_tasks = s.active_tasks := rfl

/-- A task of the queue that is not ready this iteration is still in the
queue after the iteration. -/
theorem tick_queue_contains_unready (work : AutonomousTask → Except String Unit)
    (callbacks : List (ExecutionReport → Except String Unit))
    (s : ManagerState) (t : AutonomousTask)
    (ht : t ∈ s.task_queue) (hnr : is_ready (completed_task_ids s) t = false) :
    t ∈ (tick work callbacks s).task_queue := by
  have hmem2 : t ∈ (find_ready_tasks s.task_queue (completed_task_ids s)).2 := by
    simp only [find_ready_tasks, List.partition_eq_filter_filter]
    exact List.mem_filter.mpr ⟨ht, by simp [hnr]⟩
  simp only [tick, clock_update_task_queue]
  set pr := find_ready_tasks s.task_queue (completed_task_ids s) with hpr
  obtain ⟨ext, hext⟩ :=
    foldl_execute_queue_extends work pr.1 { s with task_queue := pr.2 }
  have hq2 : t ∈ (pr.1.foldl (execute_task work)
      { s with task_queue := pr.2 }).task_queue := by
    rw [hext]
    exact List.mem_append.mpr (Or.inl hmem2)
  by_cases hready : pr.1.isEmpty
  · rw [if_pos hready, check_task_completion_queue]
    exact hq2
  · rw [if_neg hready, notify_orchestrator_spec]
    show t ∈ (check_task_completion _).task_queue
    rw [check_task_completion_queue]
    exact hq2

/-- The 4.2 edge case is invariant: a pending task with a dangling dependency
identifier keeps that property across a loop iteration (it is never selected,
and no iteration can create a task carrying the missing identifier). -/
theorem permanently_blocked_tick (work : AutonomousTask → Except String Unit)
    (callbacks : List (ExecutionReport → Except String Unit)) (s : ManagerState)
    (h : permanently_blocked s) : permanently_blocked (tick work callbacks s) := by
  obtain ⟨t, ht, hpend, d, hd, hnone⟩ := h
  have hnr : is_ready (completed_task_ids s) t = false := by
    by_contra hc
    rw [Bool.not_eq_false] at hc
    simp only [is_ready, deps_satisfied, Bool.and_eq_true, List.all_eq_true] at hc
    have hdm := List.mem_of_elem_eq_true (hc.2 d hd)
    simp only [completed_task_ids, List.mem_map] at hdm
    obtain ⟨u, hu, hud⟩ := hdm
    refine hnone u ?_ hud
    simp [all_tasks, List.mem_append, hu]
  refine ⟨t, tick_queue_contains_unready work callbacks s t ht hnr, hpend, d, hd, ?_⟩
  intro x hx
  rcases mem_all_tasks_tick work callbacks s x hx with h1 | ⟨u, hu, hxu⟩
  · exact hnone x h1
  · obtain ⟨hid, -, -⟩ := execute_outcomes_fields work s.clock u x hxu
    rw [hid]
    apply hnone
    obtain ⟨huq, -, -⟩ := find_ready_tasks_spec _ _ _ hu
    simp [all_tasks, List.mem_append, huq]

/-- A permanently blocked state never satisfies the loop guard's negation. -/
theorem loop_done_false_of_blocked (s : ManagerState)
    (h : permanently_blocked s) : loop_done s = false := by
  obtain ⟨t, ht, -⟩ := h
  cases hq : s.task_queue with
  | nil => rw [hq] at ht; cases ht
  | cons a l => simp [loop_done, hq]

/-- With a permanently blocked task the loop never exits, for any fuel. -/
theorem run_loop_none_of_blocked (work : AutonomousTask → Except String Unit)
    (callbacks : List (ExecutionReport → Except String Unit)) :
    ∀ (fuel : Nat) (s : ManagerState), permanently_blocked s →
      run_loop work callbacks fuel s = none := by
  intro fuel
  induction fuel with
  | zero =>
      intro s hb
      simp [run_loop, loop_done_false_of_blocked s hb]
  | succ n ih =>
      intro s hb
      simp only [run_loop, loop_done_false_of_blocked s hb, Bool.false_eq_true,
        if_false, ite_false]
      exact ih _ (permanently_blocked_tick work callbacks s hb)

/-- C2: the run loop exits exactly when both the pending queue and the
active-task set are empty — any state it returns has both empty, and from a
state with both empty it returns at once; and if a pending task declares a
dependency identifier carried by no task in the universe (so that it can
never be added to the completed set), the loop never terminates, whatever
the fuel. -/
theorem c2_loop_termination (work : AutonomousTask → Except String Unit)
    (callbacks : List (ExecutionReport → Except String Unit)) :
    (∀ (fuel : Nat) (s sf : ManagerState),
        run_loop work callbacks fuel s = some sf →
          sf.task_queue = [] ∧ sf.active_tasks = []) ∧
    (∀ (fuel : Nat) (s : ManagerState),
        s.task_queue = [] → s.active_tasks = [] →
          run_loop work callbacks fuel s = some s) ∧
    (∀ s : ManagerState, permanently_blocked s →
        ∀ fuel, run_loop work callbacks fuel s = none) := by
  refine ⟨?_, ?_, ?_⟩
  · intro fuel
    induction fuel with
    | zero =>
        intro s sf h
        simp only [run_loop] at h
        by_cases hd : loop_done s
        · rw [if_pos hd] at h
          cases h
          simpa [loop_done, List.isEmpty_iff, Bool.and_eq_true] using hd
        · rw [if_neg hd] at h
          cases h
    | succ n ih =>
        intro s sf h
        simp only [run_loop] at h
        by_cases hd : loop_done s
        · rw [if_pos hd] at h
          cases h
          simpa [loop_done, List.isEmpty_iff, Bool.and_eq_true] using hd
        · rw [if_neg hd] at h
          exact ih _ _ h
  · intro fuel s h1 h2
    cases fuel <;> simp [run_loop, loop_done, h1, h2]
  · intro s hb fuel
    exact run_loop_none_of_blocked work callbacks fuel s hb

/-- Witness for C2: the exit-state property at a returned state, the
immediate exit on an empty state, and non-termination on a concrete queue
whose only task depends on an identifier that exists nowhere. -/
theorem c2_witness :
    ((initial_state []).task_queue = [] ∧ (initial_state []).active_tasks = []) ∧
    run_loop stub_work [] 3 (initial_state []) = some (initial_state []) ∧
    run_loop stub_work [] 4 (initial_state [sample_task "B" ["missing"] 3]) = none := by
  have H := c2_loop_termination stub_work []
  refine ⟨H.1 0 (initial_state []) (initial_state []) rfl, ?_, ?_⟩
  · exact H.2.1 3 (initial_state []) rfl rfl
  · exact H.2.2 (initial_state [sample_task "B" ["missing"] 3]) (by decide) 4

/-! ## Claim C1: log-count lemmas -/

theorem notification_failures_shape
    (callbacks : List (ExecutionReport → Except String Unit)) (r : ExecutionReport) :
    ∀ x ∈ notification_failures callbacks r,
      ∃ e, x = LogEvent.orchestrator_notification_failed e := by
  intro x hx
  simp only [notification_failures, List.mem_filterMap] at hx
  obtain ⟨c, _, hcx⟩ := hx
  cases h : c r with
  | ok a => rw [h] at hcx; cases hcx
  | error e =>
      rw [h] at hcx
      exact ⟨e, (Option.some.inj hcx).symm⟩

theorem attempt_count_append (id : String) (l1 l2 : List LogEvent) :
    attempt_count id (l1 ++ l2) = attempt_count id l1 + attempt_count id l2 := by
  simp [attempt_count, List.filter_append]

theorem retry_event_count_append (id : String) (l1 l2 : List LogEvent) :
    retry_event_count id (l1 ++ l2) =
      retry_event_count id l1 + retry_event_count id l2 := by
  simp [retry_event_count, List.filter_append]

theorem failed_event_count_append (id : String) (l1 l2 : List LogEvent) :
    failed_event_count id (l1 ++ l2) =
      failed_event_count id l1 + failed_event_count id l2 := by
  simp [failed_event_count, List.filter_append]

theorem attempt_count_notification (id : String) (fl : List LogEvent)
    (h : ∀ x ∈ fl, ∃ e, x = LogEvent.orchestrator_notification_failed e) :
    attempt_count id fl = 0 := by
  simp only [attempt_count, List.length_eq_zero]
  apply List.filter_eq_nil_iff.mpr
  intro x hx
  obtain ⟨e, rfl⟩ := h x hx
  simp

theorem retry_event_count_notification (id : String) (fl : List LogEvent)
    (h : ∀ x ∈ fl, ∃ e, x = LogEvent.orchestrator_notification_failed e) :
    retry_event_count id fl = 0 := by
  simp only [retry_event_count, List.length_eq_zero]
  apply List.filter_eq_nil_iff.mpr
  intro x hx
  obtain ⟨e, rfl⟩ := h x hx
  simp

theorem failed_event_count_notification (id : String) (fl : List LogEvent)
    (h : ∀ x ∈ fl, ∃ e, x = LogEvent.orchestrator_notification_failed e) :
    failed_event_count id fl = 0 := by
  simp only [failed_event_count, List.length_eq_zero]
  apply List.filter_eq_nil_iff.mpr
  intro x hx
  obtain ⟨e, rfl⟩ := h x hx
  simp

/-! ## Claim C1: one failing loop iteration, evaluated -/

/-- One loop iteration on a queue holding a single dependency-free pending
task whose work raises, with retry budget remaining: the retry version is
requeued and kept active, the log gains a `task_started` and a `task_retry`
entry (plus observer-failure entries), and nothing is completed. -/
theorem tick_fail_retry_case (work : AutonomousTask → Except String Unit)
    (callbacks : List (ExecutionReport → Except String Unit))
    (t : AutonomousTask) (sid : String) (clk : Nat)
    (act : List (String × AutonomousTask)) (cs : List AutonomousTask)
    (lg : List LogEvent)
    (hp : t.status = TaskStatus.pending) (hd : t.dependencies = [])
    (e : String) (he : work (in_progress_version clk t) = Except.error e)
    (hcond : t.retry_count + 1 < t.max_retry_attempts)
    (hup : ∀ v : AutonomousTask, upsert act t.task_id v = [(t.task_id, v)]) :
    ∃ fl, (∀ x ∈ fl, ∃ e0, x = LogEvent.orchestrator_notification_failed e0) ∧
      tick work callbacks
          { session_id := sid, task_queue := [t], active_tasks := act,
            completed_tasks := cs, execution_log := lg, clock := clk } =
        { session_id := sid,
          task_queue := [retry_version clk e (in_progress_version clk t)],
          active_tasks :=
            [(t.task_id, retry_version clk e (in_progress_version clk t))],
          completed_tasks := cs,
          execution_log := lg ++ [LogEvent.task_started t.task_id] ++
            [LogEvent.task_retry t.task_id (t.retry_count + 1) e] ++ fl,
          clock := clk + 1 } := by
  have hfr : find_ready_tasks [t]
      (completed_task_ids
        { session_id := sid, task_queue := [t], active_tasks := act,
          completed_tasks := cs, execution_log := lg, clock := clk }) = ([t], []) := by
    simp [find_ready_tasks, List.partition_eq_filter_filter, is_ready, hp,
      deps_satisfied, hd]
  have hcond2 : (record_error clk e (in_progress_version clk t)).retry_count <
      (record_error clk e (in_progress_version clk t)).max_retry_attempts := by
    simpa using hcond
  refine ⟨notification_failures callbacks (generate_progress_report
    { session_id := sid,
      task_queue := [retry_version clk e (in_progress_version clk t)],
      active_tasks := [(t.task_id, retry_version clk e (in_progress_version clk t))],
      completed_tasks := cs,
      execution_log := lg ++ [LogEvent.task_started t.task_id] ++
        [LogEvent.task_retry t.task_id (t.retry_count + 1) e],
      clock := clk }), notification_failures_shape _ _, ?_⟩
  simp only [tick, hfr]
  simp only [List.foldl_cons, List.foldl_nil, execute_task, he, handle_task_error]
  rw [if_pos hcond2]
  simp only [retry_version_task_id, in_progress_version_task_id, upsert_upsert, hup,
    List.nil_append]
  simp only [check_task_completion, is_terminal, List.filter_cons, List.filter_nil,
    retry_version_status]
  norm_num
  rw [notify_orchestrator_spec]
  simp [upsert]

/-- One loop iteration on a queue holding a single dependency-free pending
task whose work raises, with retry budget exhausted: the task moves to the
completed history as the failed version, queue and active set are emptied,
and the log gains a `task_started` and a `task_failed` entry (plus
observer-failure entries). -/
theorem tick_fail_final_case (work : AutonomousTask → Except String Unit)
    (callbacks : List (ExecutionReport → Except String Unit))
    (t : AutonomousTask) (sid : String) (clk : Nat)
    (act : List (String × AutonomousTask)) (cs : List AutonomousTask)
    (lg : List LogEvent)
    (hp : t.status = TaskStatus.pending) (hd : t.dependencies = [])
    (e : String) (he : work (in_progress_version clk t) = Except.error e)
    (hcond : ¬ (t.retry_count + 1 < t.max_retry_attempts))
    (hup : ∀ v : AutonomousTask, upsert act t.task_id v = [(t.task_id, v)]) :
    ∃ fl, (∀ x ∈ fl, ∃ e0, x = LogEvent.orchestrator_notification_failed e0) ∧
      tick work callbacks
          { session_id := sid, task_queue := [t], active_tasks := act,
            completed_tasks := cs, execution_log := lg, clock := clk } =
        { session_id := sid,
          task_queue := [],
          active_tasks := [],
          completed_tasks := cs ++ [fail_version clk e (in_progress_version clk t)],
          execution_log := lg ++ [LogEvent.task_started t.task_id] ++
            [LogEvent.task_failed t.task_id e (t.retry_count + 1)] ++ fl,
          clock := clk + 1 } := by
  have hfr : find_ready_tasks [t]
      (completed_task_ids
        { session_id := sid, task_queue := [t], active_tasks := act,
          completed_tasks := cs, execution_log := lg, clock := clk }) = ([t], []) := by
    simp [find_ready_tasks, List.partition_eq_filter_filter, is_ready, hp,
      deps_satisfied, hd]
  have hcond2 : ¬ ((record_error clk e (in_progress_version clk t)).retry_count <
      (record_error clk e (in_progress_version clk t)).max_retry_attempts) := by
    simpa using hcond
  refine ⟨notification_failures callbacks (generate_progress_report
    { session_id := sid,
      task_queue := [],
      active_tasks := [],
      completed_tasks := cs ++ [fail_version clk e (in_progress_version clk t)],
      execution_log := lg ++ [LogEvent.task_started t.task_id] ++
        [LogEvent.task_failed t.task_id e (t.retry_count + 1)],
      clock := clk }), notification_failures_shape _ _, ?_⟩
  simp only [tick, hfr]
  simp only [List.foldl_cons, List.foldl_nil, execute_task, he, handle_task_error]
  rw [if_neg hcond2]
  simp only [fail_version_task_id, in_progress_version_task_id, upsert_upsert, hup]
  simp only [check_task_completion, is_terminal, List.filter_cons, List.filter_nil,
    fail_version_status]
  norm_num
  rw [notify_orchestrator_spec]
  simp [upsert]

/-! ## Claim C1: singleton log-count values -/

theorem attempt_count_started_self (id : String) :
    attempt_count id [LogEvent.task_started id] = 1 := by simp [attempt_count]

theorem attempt_count_retry_ev (id : String) (rc : Nat) (e : String) :
    attempt_count id [LogEvent.task_retry id rc e] = 0 := by simp [attempt_count]

theorem attempt_count_failed_ev (id : String) (e : String) (rc : Nat) :
    attempt_count id [LogEvent.task_failed id e rc] = 0 := by simp [attempt_count]

theorem retry_event_count_started_ev (id : String) :
    retry_event_count id [LogEvent.task_started id] = 0 := by simp [retry_event_count]

theorem retry_event_count_retry_self (id : String) (rc : Nat) (e : String) :
    retry_event_count id [LogEvent.task_retry id rc e] = 1 := by simp [retry_event_count]

theorem retry_event_count_failed_ev (id : String) (e : String) (rc : Nat) :
    retry_event_count id [LogEvent.task_failed id e rc] = 0 := by simp [retry_event_count]

theorem failed_event_count_started_ev (id : String) :
    failed_event_count id [LogEvent.task_started id] = 0 := by simp [failed_event_count]

theorem failed_event_count_retry_ev (id : String) (rc : Nat) (e : String) :
    failed_event_count id [LogEvent.task_retry id rc e] = 0 := by simp [failed_event_count]

theorem failed_event_count_failed_self (id : String) (e : String) (rc : Nat) :
    failed_event_count id [LogEvent.task_failed id e rc] = 1 := by
  simp [failed_event_count]

/-! ## Claim C1: the run of an always-failing task -/

/-- Running the loop on a queue holding one dependency-free pending task
whose work raises on every attempt: with `j` attempts left in the budget
(`retry_count + j = max_retry_attempts`, `j ≥ 1`) the loop terminates after
`j` iterations with the task failed, having logged exactly `j` started
entries, `j - 1` retry entries and one failure entry, and `j` error-log
entries on the task. -/
theorem run_loop_always_failing (work : AutonomousTask → Except String Unit)
    (callbacks : List (ExecutionReport → Except String Unit))
    (hfail : ∀ u, ∃ e, work u = Except.error e) :
    ∀ j : Nat, 1 ≤ j → ∀ (t : AutonomousTask) (sid : String) (clk : Nat)
      (act : List (String × AutonomousTask)) (cs : List AutonomousTask)
      (lg : List LogEvent),
      t.status = TaskStatus.pending → t.dependencies = [] →
      t.retry_count + j = t.max_retry_attempts →
      (∀ v : AutonomousTask, upsert act t.task_id v = [(t.task_id, v)]) →
      ∃ (sf : ManagerState) (tf : AutonomousTask),
        run_loop work callbacks j
            { session_id := sid, task_queue := [t], active_tasks := act,
              completed_tasks := cs, execution_log := lg, clock := clk } = some sf ∧
        sf.completed_tasks = cs ++ [tf] ∧
        tf.status = TaskStatus.failed ∧
        tf.task_id = t.task_id ∧
        tf.retry_count = t.max_retry_attempts ∧
        tf.error_log.length = t.error_log.length + j ∧
        attempt_count t.task_id sf.execution_log = attempt_count t.task_id lg + j ∧
        retry_event_count t.task_id sf.execution_log =
          retry_event_count t.task_id lg + (j - 1) ∧
        failed_event_count t.task_id sf.execution_log =
          failed_event_count t.task_id lg + 1 := by
  intro j
  induction j with
  | zero => intro h; exact absurd h (by omega)
  | succ j ih =>
      intro _ t sid clk act cs lg hp hd hm hup
      obtain ⟨e, he⟩ := hfail (in_progress_version clk t)
      have hstep : run_loop work callbacks (j + 1)
          { session_id := sid, task_queue := [t], active_tasks := act,
            completed_tasks := cs, execution_log := lg, clock := clk } =
          run_loop work callbacks j (tick work callbacks
            { session_id := sid, task_queue := [t], active_tasks := act,
              completed_tasks := cs, execution_log := lg, clock := clk }) := by
        simp [run_loop, loop_done]
      by_cases hj : 1 ≤ j
      · have hcond : t.retry_count + 1 < t.max_retry_attempts := by omega
        obtain ⟨fl, hfl, htick⟩ := tick_fail_retry_case work callbacks t sid clk act
          cs lg hp hd e he hcond hup
        rw [hstep, htick]
        have hup2 : ∀ v : AutonomousTask,
            upsert [(t.task_id, retry_version clk e (in_progress_version clk t))]
              (retry_version clk e (in_progress_version clk t)).task_id v =
              [((retry_version clk e (in_progress_version clk t)).task_id, v)] := by
          intro v
          simp [upsert]
        obtain ⟨sf, tf, hrun, hcs, hstat, hid, hrc, hlen, hatt, hret, hfailc⟩ :=
          ih hj (retry_version clk e (in_progress_version clk t)) sid (clk + 1)
            [(t.task_id, retry_version clk e (in_progress_version clk t))] cs
            (lg ++ [LogEvent.task_started t.task_id] ++
              [LogEvent.task_retry t.task_id (t.retry_count + 1) e] ++ fl)
            rfl (by simp [hd]) (by simp; omega) hup2
        have hflatt := attempt_count_notification t.task_id fl hfl
        have hflret := retry_event_count_notification t.task_id fl hfl
        have hflfail := failed_event_count_notification t.task_id fl hfl
        refine ⟨sf, tf, hrun, hcs, hstat, ?_, ?_, ?_, ?_, ?_, ?_⟩
        · simpa using hid
        · simpa using hrc
        · simp only [retry_version_error_log, in_progress_version_error_log,
            List.length_append, List.length_singleton] at hlen
          omega
        · simp only [retry_version_task_id, in_progress_version_task_id,
            attempt_count_append, attempt_count_started_self, attempt_count_retry_ev,
            hflatt] at hatt
          omega
        · simp only [retry_version_task_id, in_progress_version_task_id,
            retry_event_count_append, retry_event_count_started_ev,
            retry_event_count_retry_self, hflret] at hret
          omega
        · simp only [retry_version_task_id, in_progress_version_task_id,
            failed_event_count_append, failed_event_count_started_ev,
            failed_event_count_retry_ev, hflfail] at hfailc
          omega
      · have hj0 : j = 0 := by omega
        subst hj0
        have hcond : ¬ (t.retry_count + 1 < t.max_retry_attempts) := by omega
        obtain ⟨fl, hfl, htick⟩ := tick_fail_final_case work callbacks t sid clk act
          cs lg hp hd e he hcond hup
        rw [hstep, htick]
        have hflatt := attempt_count_notification t.task_id fl hfl
        have hflret := retry_event_count_notification t.task_id fl hfl
        have hflfail := failed_event_count_notification t.task_id fl hfl
        refine ⟨{ session_id := sid, task_queue := [], active_tasks := [],
                  completed_tasks :=
                    cs ++ [fail_version clk e (in_progress_version clk t)],
                  execution_log := lg ++ [LogEvent.task_started t.task_id] ++
                    [LogEvent.task_failed t.task_id e (t.retry_count + 1)] ++ fl,
                  clock := clk + 1 },
          fail_version clk e (in_progress_version clk t),
          by simp [run_loop, loop_done], rfl, rfl, rfl, ?_, ?_, ?_, ?_, ?_⟩
        · simp only [fail_version_retry_count, in_progress_version_retry_count]
          omega
        · simp only [fail_version_error_log, in_progress_version_error_log,
            List.length_append, List.length_singleton]
        · simp only [attempt_count_append, attempt_count_started_self,
            attempt_count_failed_ev, hflatt]
        · simp only [retry_event_count_append, retry_event_count_started_ev,
            retry_event_count_failed_ev, hflret]
        · simp only [failed_event_count_append, failed_event_count_started_ev,
            failed_event_count_failed_self, hflfail]

/-- C1, counterexample: a task with `max_retry_attempts = 2` whose work
raises on every attempt is attempted exactly 2 times (two `task_started`
entries), not the 3 the claim demands, before ending failed with 2 error-log
entries (not 2 retry entries plus a final failure entry). -/
theorem c1_counterexample :
    (run_loop failing_work [] 5 (initial_state [sample_task "D" [] 2])).map
        (fun sf => attempt_count "D" sf.execution_log) = some 2 ∧
    ¬ ((run_loop failing_work [] 5 (initial_state [sample_task "D" [] 2])).map
        (fun sf => attempt_count "D" sf.execution_log) = some 3) ∧
    (run_loop failing_work [] 5 (initial_state [sample_task "D" [] 2])).map
        (fun sf => sf.completed_tasks.map (fun t => t.status)) =
      some [TaskStatus.failed] ∧
    (run_loop failing_work [] 5 (initial_state [sample_task "D" [] 2])).map
        (fun sf => sf.completed_tasks.map (fun t => t.error_log.length)) =
      some [2] := by
  refine ⟨by decide, by decide, by decide, by decide⟩

/-- C1 (amended): a task whose work raises on every attempt transitions to
`failed` exactly after `max_retry_attempts` total execution attempts (for
any positive budget), never `max_retry_attempts + 1`: the source increments
`retry_count` before comparing it with `<` against `max_retry_attempts`, so
attempt number `max_retry_attempts` already exhausts the budget.  The task
ends with `max_retry_attempts` error-log entries: `max_retry_attempts - 1`
logged retries plus one final failure event. -/
theorem c1_retry_law_amended (work : AutonomousTask → Except String Unit)
    (callbacks : List (ExecutionReport → Except String Unit))
    (t : AutonomousTask) (sid : String) (clk : Nat)
    (hfail : ∀ u, ∃ e, work u = Except.error e)
    (hp : t.status = TaskStatus.pending) (hd : t.dependencies = [])
    (hr0 : t.retry_count = 0) (hlog : t.error_log = [])
    (hm : 1 ≤ t.max_retry_attempts) :
    ∃ (sf : ManagerState) (tf : AutonomousTask),
      run_loop work callbacks t.max_retry_attempts
          { session_id := sid, task_queue := [t], active_tasks := [],
            completed_tasks := [], execution_log := [], clock := clk } = some sf ∧
      sf.completed_tasks = [tf] ∧
      tf.status = TaskStatus.failed ∧
      tf.task_id = t.task_id ∧
      tf.retry_count = t.max_retry_attempts ∧
      tf.error_log.length = t.max_retry_attempts ∧
      attempt_count t.task_id sf.execution_log = t.max_retry_attempts ∧
      retry_event_count t.task_id sf.execution_log = t.max_retry_attempts - 1 ∧
      failed_event_count t.task_id sf.execution_log = 1 := by
  obtain ⟨sf, tf, hrun, hcs, hstat, hid, hrc, hlen, hatt, hret, hfailc⟩ :=
    run_loop_always_failing work callbacks hfail t.max_retry_attempts hm t sid clk
      [] [] [] hp hd (by omega) (fun v => rfl)
  refine ⟨sf, tf, hrun, by simpa using hcs, hstat, hid, hrc, ?_, ?_, ?_, ?_⟩
  · rw [hlen, hlog]; simp
  · rw [hatt]; simp [attempt_count]
  · rw [hret]; simp [retry_event_count]
  · rw [hfailc]; simp [failed_event_count]

/-- Witness for C1 (amended) at the concrete task D with budget 2. -/
theorem c1_witness :
    ∃ (sf : ManagerState) (tf : AutonomousTask),
      run_loop failing_work [] (sample_task "D" [] 2).max_retry_attempts
          { session_id := "session", task_queue := [sample_task "D" [] 2],
            active_tasks := [], completed_tasks := [], execution_log := [],
            clock := 0 } = some sf ∧
      sf.completed_tasks = [tf] ∧
      tf.status = TaskStatus.failed ∧
      tf.task_id = (sample_task "D" [] 2).task_id ∧
      tf.retry_count = (sample_task "D" [] 2).max_retry_attempts ∧
      tf.error_log.length = (sample_task "D" [] 2).max_retry_attempts ∧
      attempt_count (sample_task "D" [] 2).task_id sf.execution_log =
        (sample_task "D" [] 2).max_retry_attempts ∧
      retry_event_count (sample_task "D" [] 2).task_id sf.execution_log =
        (sample_task "D" [] 2).max_retry_attempts - 1 ∧
      failed_event_count (sample_task "D" [] 2).task_id sf.execution_log = 1 :=
  c1_retry_law_amended failing_work [] (sample_task "D" [] 2) "session" 0
    (fun u => ⟨"boom", rfl⟩) rfl rfl rfl rfl (by decide)

end AutonomousManager
